import Mathlib

/-!
Shallow embedding of `src/main.py`: a FastAPI service wrapping an iris
classifier. Global counters (`prediction_counts`, `total_api_calls`,
`total_prediction_time`, `prediction_history`) become a `State` record;
each HTTP handler becomes a function of that state. Times delivered by
`time.time()` are nondeterministic inputs, so the timestamp and the
measured duration of a prediction are explicit parameters of the step.
The model artifact is opaque: it is modelled as an optional function
from a flower measurement to an integer class index.
-/

namespace Iris

/-- The `Flower` pydantic model: four numeric fields (`float`, no range
constraint), from `src/main.py` lines 28-32. Real values are modelled
as rationals. -/
structure Flower where
  sepal_length : ℚ
  sepal_width : ℚ
  petal_length : ℚ
  petal_width : ℚ
deriving DecidableEq

/-- One element of the `prediction_history` list (`src/main.py` lines 65-75):
timestamp, predicted label, duration, and an echo of the input. -/
structure HistoryEntry where
  timestamp : ℚ
  flower : String
  duration : ℚ
  input : Flower
deriving DecidableEq

/-- The process-wide mutable globals of `src/main.py` lines 15-18:
`prediction_counts` (one field per label key), `total_api_calls`,
`total_prediction_time`, `prediction_history`. -/
structure State where
  setosa_count : ℕ
  versicolor_count : ℕ
  virginica_count : ℕ
  total_api_calls : ℕ
  total_prediction_time : ℚ
  prediction_history : List HistoryEntry
deriving DecidableEq

/-- Initial global state (all counters zero, empty history),
`src/main.py` lines 15-18. -/
def initState : State :=
  { setosa_count := 0, versicolor_count := 0, virginica_count := 0,
    total_api_calls := 0, total_prediction_time := 0, prediction_history := [] }

/-- The fixed label list `flowers` of `src/main.py` line 54. -/
def flowers : List String := ["setosa", "versicolor", "virginica"]

/-- Python list indexing semantics for `flowers[prediction]`
(`src/main.py` line 55): a non-negative index reads from the front, a
negative index `i` with `0 ≤ i + len` wraps to `i + len`, anything else
raises IndexError (modelled as `none`). -/
def pyListGet (xs : List String) (i : ℤ) : Option String :=
  if 0 ≤ i then xs[i.toNat]?
  else if 0 ≤ i + xs.length then xs[(i + xs.length).toNat]?
  else none

/-- Value of `prediction_counts[lbl]` (`prediction_counts.get` in Python:
a missing key reads as 0 and is never incremented). -/
def labelCount (s : State) (lbl : String) : ℕ :=
  if lbl = "setosa" then s.setosa_count
  else if lbl = "versicolor" then s.versicolor_count
  else if lbl = "virginica" then s.virginica_count
  else 0

/-- `prediction_counts[predicted_flower] += 1` (`src/main.py` line 62).
Only ever called with a label drawn from `flowers`. -/
def bumpLabel (s : State) (lbl : String) : State :=
  if lbl = "setosa" then { s with setosa_count := s.setosa_count + 1 }
  else if lbl = "versicolor" then { s with versicolor_count := s.versicolor_count + 1 }
  else { s with virginica_count := s.virginica_count + 1 }

/-- The history trim of `src/main.py` lines 78-79: when the list has
grown past 50 entries, keep only the last 50 (`prediction_history[-50:]`). -/
def trimHist (xs : List HistoryEntry) : List HistoryEntry :=
  if xs.length > 50 then xs.drop (xs.length - 50) else xs

/-- Outcome of a `/predict` call: the soft error payload, a success
payload `{predicted_flower, confidence, duration}`, or an unhandled
IndexError escaping the handler. -/
inductive PredictOutcome where
  | errorPayload (error : String)
  | success (predicted_flower : String) (confidence : String) (duration : ℚ)
  | indexFault (idx : ℤ)
deriving DecidableEq

/-- `predict_flower` (`src/main.py` lines 38-81). `model` is the loaded
artifact (`none` when loading failed); `ts` is the wall-clock timestamp
recorded into the history entry and `dur` the measured elapsed duration,
both nondeterministic inputs. The response's duration string
`f"{prediction_duration:.4f}s"` is kept as the raw rational. -/
def predict_flower (model : Option (Flower → ℤ)) (ts dur : ℚ) (flower : Flower)
    (s : State) : PredictOutcome × State :=
  match model with
  | none => (.errorPayload "Model not loaded", s)
  | some m =>
      let s1 : State := { s with total_api_calls := s.total_api_calls + 1 }
      let prediction : ℤ := m flower
      match pyListGet flowers prediction with
      | none => (.indexFault prediction, s1)
      | some predicted_flower =>
          let s2 : State :=
            { s1 with total_prediction_time := s1.total_prediction_time + dur }
          let s3 : State := bumpLabel s2 predicted_flower
          let entry : HistoryEntry :=
            { timestamp := ts, flower := predicted_flower, duration := dur,
              input := flower }
          let h : List HistoryEntry := s3.prediction_history ++ [entry]
          (.success predicted_flower "high" dur,
           { s3 with prediction_history := trimHist h })

/-- The statistics block of the `/stats` response (`src/main.py` lines
544-554). The 4-decimal string rendering of the average is kept as the
raw rational. -/
structure StatsView where
  total_predictions : ℕ
  total_api_calls : ℕ
  average_prediction_time : ℚ
  breakdown_setosa : ℕ
  breakdown_versicolor : ℕ
  breakdown_virginica : ℕ
  most_predicted : String
  model_accuracy : String
  api_uptime : String
  performance_grade : String
deriving DecidableEq

/-- `max(prediction_counts, key=prediction_counts.get)` (`src/main.py`
line 540): Python's `max` scans the keys in insertion order (setosa,
versicolor, virginica) and replaces the current best only on a strictly
greater key value. -/
def pyMaxByCount (s : State) : String :=
  (["versicolor", "virginica"]).foldl
    (fun cur x => if labelCount s cur < labelCount s x then x else cur) "setosa"

/-- `get_stats` (`src/main.py` lines 533-569), statistics block only;
the instructions and endpoint-index blocks are constant text. -/
def get_stats (s : State) : StatsView :=
  let total_predictions : ℕ :=
    s.setosa_count + s.versicolor_count + s.virginica_count
  let avg_time : ℚ :=
    if total_predictions > 0 then
      s.total_prediction_time / ((max total_predictions 1 : ℕ) : ℚ)
    else 0
  let most_predicted : String :=
    if total_predictions > 0 then pyMaxByCount s else "None"
  { total_predictions := total_predictions,
    total_api_calls := s.total_api_calls,
    average_prediction_time := avg_time,
    breakdown_setosa := s.setosa_count,
    breakdown_versicolor := s.versicolor_count,
    breakdown_virginica := s.virginica_count,
    most_predicted := most_predicted,
    model_accuracy := "95.2%",
    api_uptime := "100%",
    performance_grade :=
      if avg_time < 1/10 then "A+" else if avg_time < 1/2 then "A" else "B" }

/-- The numeric values interpolated into the `/metrics` Prometheus text
(`src/main.py` lines 571-603); the 6-decimal rendering of the average is
kept as the raw rational. -/
structure MetricsView where
  setosa_total : ℕ
  versicolor_total : ℕ
  virginica_total : ℕ
  api_calls_total : ℕ
  prediction_time_average_seconds : ℚ
  total_predictions_made : ℕ
  model_accuracy_percent : ℚ
  api_uptime_percent : ℚ
deriving DecidableEq

/-- `get_metrics` (`src/main.py` lines 571-603). -/
def get_metrics (s : State) : MetricsView :=
  let total_preds : ℕ := s.setosa_count + s.versicolor_count + s.virginica_count
  let avg_time : ℚ :=
    if total_preds > 0 then
      s.total_prediction_time / ((max total_preds 1 : ℕ) : ℚ)
    else 0
  { setosa_total := s.setosa_count,
    versicolor_total := s.versicolor_count,
    virginica_total := s.virginica_count,
    api_calls_total := s.total_api_calls,
    prediction_time_average_seconds := avg_time,
    total_predictions_made := total_preds,
    model_accuracy_percent := 952/10,
    api_uptime_percent := 100 }

/-- The `/health` response (`src/main.py` lines 605-616). -/
structure HealthView where
  status : String
  model_loaded : Bool
  total_predictions : ℕ
  api_version : String
  uptime : String
  system_status : String
  endpoints : List String
deriving DecidableEq

/-- `health_check` (`src/main.py` lines 605-616). -/
def health_check (modelLoaded : Bool) (s : State) : HealthView :=
  { status := "healthy",
    model_loaded := modelLoaded,
    total_predictions := s.setosa_count + s.versicolor_count + s.virginica_count,
    api_version := "1.0.0",
    uptime := "API is running smoothly",
    system_status := "All systems operational",
    endpoints := ["/", "/predict", "/ui", "/dashboard", "/stats", "/metrics", "/docs"] }

/-- One HTTP request against the service. A predict request carries the
adapter state visible to it and the two wall-clock readings. -/
inductive Request where
  | predict (model : Option (Flower → ℤ)) (flower : Flower) (ts dur : ℚ)
  | stats
  | metrics
  | health (modelLoaded : Bool)

/-- The response produced for each request. -/
inductive Response where
  | predictOut (r : PredictOutcome)
  | statsOut (r : StatsView)
  | metricsOut (r : MetricsView)
  | healthOut (r : HealthView)

/-- Route dispatch: each handler maps the current globals to a response
and the new globals. -/
def handle : Request → State → Response × State
  | .predict model flower ts dur, s =>
      let p := predict_flower model ts dur flower s
      (.predictOut p.1, p.2)
  | .stats, s => (.statsOut (get_stats s), s)
  | .metrics, s => (.metricsOut (get_metrics s), s)
  | .health b, s => (.healthOut (health_check b s), s)

/-- State transition of one request. -/
def step (r : Request) (s : State) : State := (handle r s).2

/-- Replay a sequence of requests from a starting state. -/
def run (rs : List Request) (s : State) : State := rs.foldl (fun t r => step r t) s

/-- A predict request whose adapter is loaded, regardless of index range. -/
def isLoadedPredict : Request → Bool
  | .predict (some _) _ _ _ => true
  | _ => false

/-- A successful prediction: adapter loaded and the class index within
Python's valid range for the three-element list. -/
def isSuccessfulPredict : Request → Bool
  | .predict (some m) fl _ _ => (pyListGet flowers (m fl)).isSome
  | _ => false

/-- A request that does not hit the IndexError fault: anything except a
loaded predict whose index is out of Python list range. -/
def faultFree : Request → Bool
  | .predict (some m) fl _ _ => (pyListGet flowers (m fl)).isSome
  | _ => true

/-- The history entry a request appends, when it is a successful
prediction. The entry depends only on the request, never on the state. -/
def requestEntry : Request → Option HistoryEntry
  | .predict (some m) fl ts dur =>
      match pyListGet flowers (m fl) with
      | some lbl => some { timestamp := ts, flower := lbl, duration := dur, input := fl }
      | none => none
  | _ => none

/-- The history entries appended over a request sequence, in order. -/
def successEntries (rs : List Request) : List HistoryEntry := rs.filterMap requestEntry

/-- Sum of the three per-label counters. -/
def sumCounts (s : State) : ℕ := s.setosa_count + s.versicolor_count + s.virginica_count

/-- The trailing-50 window `xs[-50:]` kept by the history trim. -/
def last50 (xs : List HistoryEntry) : List HistoryEntry := xs.drop (xs.length - 50)

/-- The transport model of the `/predict` request body: each of the four
schema fields either present (numeric, already coerced to float) or
missing. Pydantic accepts the body exactly when all four fields are
present; it imposes no range constraint (`src/main.py` lines 28-32). -/
structure RawBody where
  sepal_length : Option ℚ
  sepal_width : Option ℚ
  petal_length : Option ℚ
  petal_width : Option ℚ
deriving DecidableEq

/-- Schema validation of the request body against the `Flower` model
(`src/main.py` lines 28-32): all four numeric fields must be present;
any value is accepted. -/
def validateFlower (b : RawBody) : Option Flower :=
  match b.sepal_length, b.sepal_width, b.petal_length, b.petal_width with
  | some a, some b, some c, some d =>
      some { sepal_length := a, sepal_width := b, petal_length := c, petal_width := d }
  | _, _, _, _ => none

/-! ### Helper lemmas about single steps -/

lemma run_nil (s : State) : run [] s = s := rfl

lemma run_cons (r : Request) (rs : List Request) (s : State) :
    run (r :: rs) s = run rs (step r s) := rfl

lemma bumpLabel_api (s : State) (lbl : String) :
    (bumpLabel s lbl).total_api_calls = s.total_api_calls := by
  unfold bumpLabel; split_ifs <;> rfl

lemma bumpLabel_accum (s : State) (lbl : String) :
    (bumpLabel s lbl).total_prediction_time = s.total_prediction_time := by
  unfold bumpLabel; split_ifs <;> rfl

lemma bumpLabel_hist (s : State) (lbl : String) :
    (bumpLabel s lbl).prediction_history = s.prediction_history := by
  unfold bumpLabel; split_ifs <;> rfl

lemma sumCounts_bumpLabel (s : State) (lbl : String) :
    sumCounts (bumpLabel s lbl) = sumCounts s + 1 := by
  unfold bumpLabel sumCounts; split_ifs <;> simp <;> omega

lemma step_predict_none (fl : Flower) (ts dur : ℚ) (s : State) :
    step (.predict none fl ts dur) s = s := rfl

lemma step_stats (s : State) : step .stats s = s := rfl

lemma step_metrics (s : State) : step .metrics s = s := rfl

lemma step_health (b : Bool) (s : State) : step (.health b) s = s := rfl

lemma step_predict_some_fault (m : Flower → ℤ) (fl : Flower) (ts dur : ℚ) (s : State)
    (hq : pyListGet flowers (m fl) = none) :
    step (.predict (some m) fl ts dur) s =
      { s with total_api_calls := s.total_api_calls + 1 } := by
  simp only [step, handle, predict_flower, hq]

lemma step_predict_some_success (m : Flower → ℤ) (fl : Flower) (ts dur : ℚ) (s : State)
    (lbl : String) (hq : pyListGet flowers (m fl) = some lbl) :
    step (.predict (some m) fl ts dur) s =
      { bumpLabel { s with total_api_calls := s.total_api_calls + 1,
                           total_prediction_time := s.total_prediction_time + dur } lbl
        with prediction_history :=
          trimHist (s.prediction_history ++
            [{ timestamp := ts, flower := lbl, duration := dur, input := fl }]) } := by
  simp [step, handle, predict_flower, hq, bumpLabel_hist]

lemma requestEntry_isSome_iff (r : Request) :
    (requestEntry r).isSome = isSuccessfulPredict r := by
  cases r with
  | predict model fl ts dur =>
      cases model with
      | none => rfl
      | some m =>
          cases hq : pyListGet flowers (m fl) <;>
            simp [requestEntry, isSuccessfulPredict, hq]
  | stats => rfl
  | metrics => rfl
  | health b => rfl

lemma sumCounts_step (r : Request) (s : State) :
    sumCounts (step r s) = sumCounts s + (isSuccessfulPredict r).toNat := by
  cases r with
  | predict model fl ts dur =>
      cases model with
      | none => simp [step_predict_none, isSuccessfulPredict]
      | some m =>
          cases hq : pyListGet flowers (m fl) with
          | none =>
              rw [step_predict_some_fault m fl ts dur s hq]
              simp [sumCounts, isSuccessfulPredict, hq]
          | some lbl =>
              rw [step_predict_some_success m fl ts dur s lbl hq]
              have := sumCounts_bumpLabel
                { s with total_api_calls := s.total_api_calls + 1,
                         total_prediction_time := s.total_prediction_time + dur } lbl
              simp [sumCounts, isSuccessfulPredict, hq] at this ⊢
              omega
  | stats => simp [step_stats, isSuccessfulPredict]
  | metrics => simp [step_metrics, isSuccessfulPredict]
  | health b => simp [step_health, isSuccessfulPredict]

lemma api_step (r : Request) (s : State) :
    (step r s).total_api_calls = s.total_api_calls + (isLoadedPredict r).toNat := by
  cases r with
  | predict model fl ts dur =>
      cases model with
      | none => simp [step_predict_none, isLoadedPredict]
      | some m =>
          cases hq : pyListGet flowers (m fl) with
          | none =>
              rw [step_predict_some_fault m fl ts dur s hq]
              simp [isLoadedPredict]
          | some lbl =>
              rw [step_predict_some_success m fl ts dur s lbl hq]
              simp [bumpLabel_api, isLoadedPredict]
  | stats => simp [step_stats, isLoadedPredict]
  | metrics => simp [step_metrics, isLoadedPredict]
  | health b => simp [step_health, isLoadedPredict]

lemma accum_step (r : Request) (s : State) :
    (step r s).total_prediction_time =
      s.total_prediction_time + ((requestEntry r).elim 0 HistoryEntry.duration) := by
  cases r with
  | predict model fl ts dur =>
      cases model with
      | none => simp [step_predict_none, requestEntry]
      | some m =>
          cases hq : pyListGet flowers (m fl) with
          | none =>
              rw [step_predict_some_fault m fl ts dur s hq]
              simp [requestEntry, hq]
          | some lbl =>
              rw [step_predict_some_success m fl ts dur s lbl hq]
              simp [bumpLabel_accum, requestEntry, hq]
  | stats => simp [step_stats, requestEntry]
  | metrics => simp [step_metrics, requestEntry]
  | health b => simp [step_health, requestEntry]

lemma hist_step (r : Request) (s : State) :
    (step r s).prediction_history =
      (requestEntry r).elim s.prediction_history
        (fun e => trimHist (s.prediction_history ++ [e])) := by
  cases r with
  | predict model fl ts dur =>
      cases model with
      | none => simp [step_predict_none, requestEntry]
      | some m =>
          cases hq : pyListGet flowers (m fl) with
          | none =>
              rw [step_predict_some_fault m fl ts dur s hq]
              simp [requestEntry, hq]
          | some lbl =>
              rw [step_predict_some_success m fl ts dur s lbl hq]
              simp [requestEntry, hq]
  | stats => simp [step_stats, requestEntry]
  | metrics => simp [step_metrics, requestEntry]
  | health b => simp [step_health, requestEntry]

/-! ### Helper lemmas about request sequences -/

lemma successEntries_cons (r : Request) (rs : List Request) :
    successEntries (r :: rs) =
      ((requestEntry r).elim [] (fun e => [e])) ++ successEntries rs := by
  cases hq : requestEntry r <;> simp [successEntries, List.filterMap_cons, hq]

lemma length_successEntries_cons (r : Request) (rs : List Request) :
    (successEntries (r :: rs)).length =
      (isSuccessfulPredict r).toNat + (successEntries rs).length := by
  rw [successEntries_cons, ← requestEntry_isSome_iff]
  cases hq : requestEntry r <;> simp [hq] <;> omega

lemma sumCounts_run (rs : List Request) (s : State) :
    sumCounts (run rs s) = sumCounts s + (successEntries rs).length := by
  induction rs generalizing s with
  | nil => simp [run_nil, successEntries]
  | cons r rs ih =>
      rw [run_cons, ih, sumCounts_step, length_successEntries_cons]
      omega

lemma api_run (rs : List Request) (s : State) :
    (run rs s).total_api_calls = s.total_api_calls + rs.countP isLoadedPredict := by
  induction rs generalizing s with
  | nil => simp [run_nil]
  | cons r rs ih =>
      rw [run_cons, ih, api_step, List.countP_cons]
      cases h : isLoadedPredict r <;> simp [h] <;> omega

lemma accum_run (rs : List Request) (s : State) :
    (run rs s).total_prediction_time =
      s.total_prediction_time + ((successEntries rs).map HistoryEntry.duration).sum := by
  induction rs generalizing s with
  | nil => simp [run_nil, successEntries]
  | cons r rs ih =>
      rw [run_cons, ih, accum_step, successEntries_cons]
      cases hq : requestEntry r <;> simp [hq] <;> ring

lemma length_successEntries (rs : List Request) :
    (successEntries rs).length = rs.countP isSuccessfulPredict := by
  induction rs with
  | nil => rfl
  | cons r rs ih =>
      rw [length_successEntries_cons, List.countP_cons, ih]
      cases h : isSuccessfulPredict r <;> simp [h] <;> omega

lemma faultFree_loaded_eq_successful (r : Request) (h : faultFree r = true) :
    isLoadedPredict r = isSuccessfulPredict r := by
  cases r with
  | predict model fl ts dur =>
      cases model with
      | none => rfl
      | some m =>
          simp only [isLoadedPredict, isSuccessfulPredict]
          simp only [faultFree] at h
          exact h.symm
  | stats => rfl
  | metrics => rfl
  | health b => rfl

lemma countP_loaded_eq_successful (rs : List Request)
    (h : ∀ r ∈ rs, faultFree r = true) :
    rs.countP isLoadedPredict = rs.countP isSuccessfulPredict := by
  induction rs with
  | nil => rfl
  | cons r rs ih =>
      rw [List.countP_cons, List.countP_cons,
          faultFree_loaded_eq_successful r (h r (by simp)),
          ih (fun x hx => h x (by simp [hx]))]

lemma trimHist_last50_append (E : List HistoryEntry) (e : HistoryEntry) :
    trimHist (last50 E ++ [e]) = last50 (E ++ [e]) := by
  rcases le_or_lt 50 E.length with h | h
  · have hc : (last50 E ++ [e]).length > 50 := by
      simp [last50]
      omega
    have hlen : (last50 E ++ [e]).length = 51 := by
      simp [last50]
      omega
    unfold trimHist
    rw [if_pos hc, hlen]
    have h1 : (last50 E ++ [e]).drop (51 - 50) = (last50 E).drop 1 ++ [e] := by
      apply List.drop_append_of_le_length
      simp [last50]
      omega
    rw [h1]
    unfold last50
    rw [List.drop_drop]
    have h2 : (E ++ [e]).drop ((E ++ [e]).length - 50) =
        E.drop ((E ++ [e]).length - 50) ++ [e] :=
      List.drop_append_of_le_length (by simp only [List.length_append, List.length_singleton]; omega)
    rw [h2]
    have h3 : E.length - 50 + 1 = (E ++ [e]).length - 50 := by
      simp only [List.length_append, List.length_singleton]
      omega
    rw [h3]
  · have hc : ¬ (last50 E ++ [e]).length > 50 := by
      simp [last50]
      omega
    unfold trimHist
    rw [if_neg hc]
    unfold last50
    have h0 : E.length - 50 = 0 := by omega
    have h0' : (E ++ [e]).length - 50 = 0 := by
      simp only [List.length_append, List.length_singleton]
      omega
    rw [h0, h0']
    simp

lemma hist_run (rs : List Request) (s : State) (E : List HistoryEntry)
    (hE : s.prediction_history = last50 E) :
    (run rs s).prediction_history = last50 (E ++ successEntries rs) := by
  induction rs generalizing s E with
  | nil => simpa [run_nil, successEntries] using hE
  | cons r rs ih =>
      rw [run_cons]
      cases hq : requestEntry r with
      | none =>
          have hh : (step r s).prediction_history = last50 E := by
            rw [hist_step, hq]
            simpa using hE
          rw [ih (step r s) E hh, successEntries_cons, hq]
          simp
      | some e =>
          have hh : (step r s).prediction_history = last50 (E ++ [e]) := by
            rw [hist_step, hq]
            simp only [Option.elim]
            rw [hE, trimHist_last50_append]
          rw [ih (step r s) (E ++ [e]) hh, successEntries_cons, hq]
          simp

lemma hist_run_init (rs : List Request) :
    (run rs initState).prediction_history = last50 (successEntries rs) := by
  have h := hist_run rs initState [] rfl
  simpa using h

/-! ### Label lookup facts -/

lemma pyListGet_zero : pyListGet flowers 0 = some "setosa" := rfl

lemma pyListGet_one : pyListGet flowers 1 = some "versicolor" := rfl

lemma pyListGet_two : pyListGet flowers 2 = some "virginica" := rfl

lemma mem_flowers_of_pyListGet (i : ℤ) (lbl : String)
    (hq : pyListGet flowers i = some lbl) : lbl ∈ flowers := by
  unfold pyListGet at hq
  split at hq
  · exact List.getElem?_mem hq
  · split at hq
    · exact List.getElem?_mem hq
    · cases hq

lemma pyListGet_out_of_range (i : ℤ) (h : 3 ≤ i ∨ i ≤ -4) :
    pyListGet flowers i = none := by
  unfold pyListGet
  rcases h with h | h
  · rw [if_pos (by omega)]
    apply List.getElem?_eq_none
    show flowers.length ≤ i.toNat
    simp only [flowers, List.length_cons, List.length_nil]
    omega
  · rw [if_neg (by omega), if_neg]
    simp only [flowers, List.length_cons, List.length_nil]
    push_cast
    omega

lemma labelCount_setosa (s : State) : labelCount s "setosa" = s.setosa_count := rfl

lemma labelCount_versicolor (s : State) :
    labelCount s "versicolor" = s.versicolor_count := rfl

lemma labelCount_virginica (s : State) :
    labelCount s "virginica" = s.virginica_count := rfl

lemma labelCount_bump_self (s : State) (lbl : String) (h : lbl ∈ flowers) :
    labelCount (bumpLabel s lbl) lbl = labelCount s lbl + 1 := by
  simp only [flowers, List.mem_cons, List.not_mem_nil, or_false] at h
  rcases h with h | h | h <;> subst h <;> rfl

lemma labelCount_bump_other (s : State) (lbl other : String) (h : lbl ∈ flowers)
    (ho : other ∈ flowers) (hne : other ≠ lbl) :
    labelCount (bumpLabel s lbl) other = labelCount s other := by
  simp only [flowers, List.mem_cons, List.not_mem_nil, or_false] at h ho
  rcases h with h | h | h <;> rcases ho with ho | ho | ho <;> subst h <;> subst ho <;>
    first | exact absurd rfl hne | rfl

lemma labelCount_set_hist (t : State) (hl : List HistoryEntry) (other : String) :
    labelCount { t with prediction_history := hl } other = labelCount t other := rfl

lemma labelCount_set_api_accum (s : State) (a : ℕ) (q : ℚ) (other : String) :
    labelCount { s with total_api_calls := a, total_prediction_time := q } other =
      labelCount s other := rfl

lemma predict_success_core (m : Flower → ℤ) (fl : Flower) (ts dur : ℚ) (s : State)
    (lbl : String) (hq : pyListGet flowers (m fl) = some lbl) :
    (predict_flower (some m) ts dur fl s).1 = .success lbl "high" dur ∧
    (predict_flower (some m) ts dur fl s).2.total_api_calls = s.total_api_calls + 1 ∧
    labelCount (predict_flower (some m) ts dur fl s).2 lbl = labelCount s lbl + 1 ∧
    ∀ other ∈ flowers, other ≠ lbl →
      labelCount (predict_flower (some m) ts dur fl s).2 other = labelCount s other := by
  have hmem := mem_flowers_of_pyListGet (m fl) lbl hq
  have hstate : (predict_flower (some m) ts dur fl s).2 =
      step (.predict (some m) fl ts dur) s := rfl
  have hs := step_predict_some_success m fl ts dur s lbl hq
  refine ⟨by simp [predict_flower, hq], ?_, ?_, ?_⟩
  · rw [hstate, hs]
    simp [bumpLabel_api]
  · rw [hstate, hs, labelCount_set_hist, labelCount_bump_self _ _ hmem,
      labelCount_set_api_accum]
  · intro other ho hne
    rw [hstate, hs, labelCount_set_hist, labelCount_bump_other _ _ _ hmem ho hne,
      labelCount_set_api_accum]

lemma accum_zero_of_no_success (rs : List Request)
    (h : sumCounts (run rs initState) = 0) :
    (run rs initState).total_prediction_time = 0 := by
  have h1 := sumCounts_run rs initState
  rw [h] at h1
  have h2 : (successEntries rs).length = 0 := by
    simp [initState, sumCounts] at h1
    omega
  have h3 : successEntries rs = [] := List.length_eq_zero.mp h2
  have h4 := accum_run rs initState
  rw [h3] at h4
  simpa [initState] using h4

/-- A spec-side reformulation of the most-predicted rule, written from the
spec's words for claim C7: the label with the highest per-label count, the
string "None" when no predictions have been made, ties broken by the first
label in iteration order (setosa before versicolor before virginica). -/
def specMostPredicted (s : State) : String :=
  if sumCounts s = 0 then "None"
  else if s.versicolor_count ≤ s.setosa_count ∧ s.virginica_count ≤ s.setosa_count then
    "setosa"
  else if s.virginica_count ≤ s.versicolor_count then "versicolor"
  else "virginica"

/-! ### Concrete inputs used by witnesses and counterexamples -/

/-- The spec's §8 scenario measurement (5.1, 3.5, 1.4, 0.2). -/
def sampleFlower : Flower :=
  { sepal_length := 51/10, sepal_width := 35/10, petal_length := 14/10,
    petal_width := 2/10 }

/-- A model artifact that always yields class index 0. -/
def modelZero : Flower → ℤ := fun _ => 0

/-- A model artifact that always yields class index -1. -/
def modelNeg : Flower → ℤ := fun _ => -1

/-- A model artifact that always yields class index 3. -/
def modelThree : Flower → ℤ := fun _ => 3

/-- A short request mix: one successful prediction, one rejected
prediction against an unloaded adapter, one stats read. -/
def wreqs : List Request :=
  [.predict (some modelZero) sampleFlower 0 0,
   .predict none sampleFlower 0 0,
   .stats]

/-- Fifty-one successful predictions in a row. -/
def wreqs51 : List Request :=
  List.replicate 51 (.predict (some modelZero) sampleFlower 0 0)

/-- A state where setosa and versicolor are tied for the highest count. -/
def tieState : State := { initState with setosa_count := 1, versicolor_count := 1 }

/-- A request body whose sepal length is negative. -/
def negBody : RawBody :=
  { sepal_length := some (-1), sepal_width := some (35/10),
    petal_length := some (14/10), petal_width := some (2/10) }

/-- The flower produced by validating `negBody`. -/
def negFlower : Flower :=
  { sepal_length := -1, sepal_width := 35/10, petal_length := 14/10,
    petal_width := 2/10 }

/-! ### Claims -/

/-- C1: for every four-field numeric input, when the model is loaded and
its class index is in {0,1,2}, `predict_flower` returns a
`predicted_flower` label in {setosa, versicolor, virginica}, increments
that label's counter by exactly 1, increments the total-call counter by
exactly 1, and leaves the other two label counters unchanged. -/
theorem predict_flower_success_updates_counters (m : Flower → ℤ) (fl : Flower)
    (ts dur : ℚ) (s : State) (h : m fl = 0 ∨ m fl = 1 ∨ m fl = 2) :
    ∃ lbl ∈ flowers,
      (predict_flower (some m) ts dur fl s).1 = .success lbl "high" dur ∧
      (predict_flower (some m) ts dur fl s).2.total_api_calls = s.total_api_calls + 1 ∧
      labelCount (predict_flower (some m) ts dur fl s).2 lbl = labelCount s lbl + 1 ∧
      ∀ other ∈ flowers, other ≠ lbl →
        labelCount (predict_flower (some m) ts dur fl s).2 other = labelCount s other := by
  rcases h with h | h | h
  · exact ⟨"setosa", by simp [flowers],
      predict_success_core m fl ts dur s _ (by rw [h]; exact pyListGet_zero)⟩
  · exact ⟨"versicolor", by simp [flowers],
      predict_success_core m fl ts dur s _ (by rw [h]; exact pyListGet_one)⟩
  · exact ⟨"virginica", by simp [flowers],
      predict_success_core m fl ts dur s _ (by rw [h]; exact pyListGet_two)⟩

/-- Witness for C1 at the spec's sample measurement with a class-0 model. -/
theorem predict_flower_success_updates_counters_witness :
    (modelZero sampleFlower = 0 ∨ modelZero sampleFlower = 1 ∨ modelZero sampleFlower = 2) ∧
    (∃ lbl ∈ flowers,
      (predict_flower (some modelZero) 0 0 sampleFlower initState).1 =
        .success lbl "high" 0 ∧
      (predict_flower (some modelZero) 0 0 sampleFlower initState).2.total_api_calls =
        initState.total_api_calls + 1 ∧
      labelCount (predict_flower (some modelZero) 0 0 sampleFlower initState).2 lbl =
        labelCount initState lbl + 1 ∧
      ∀ other ∈ flowers, other ≠ lbl →
        labelCount (predict_flower (some modelZero) 0 0 sampleFlower initState).2 other =
          labelCount initState other) :=
  ⟨Or.inl rfl,
   predict_flower_success_updates_counters modelZero sampleFlower 0 0 initState (Or.inl rfl)⟩

/-- C2: when the model is not loaded, `predict_flower` returns the payload
{error: "Model not loaded"}, does not raise, and leaves every piece of the
metrics state unchanged (per-label counters, total-call counter,
cumulative-latency accumulator, history buffer). -/
theorem predict_flower_unloaded_noop (fl : Flower) (ts dur : ℚ) (s : State) :
    predict_flower none ts dur fl s = (.errorPayload "Model not loaded", s) := rfl

/-- C3 counterexample: the claim says every class index outside {0,1,2}
is a fatal fault with no label returned and no counter incremented, but at
index -1 Python's negative list indexing returns "virginica" and
increments its counter. -/
theorem negative_index_returns_label :
    (predict_flower (some modelNeg) 0 0 sampleFlower initState).1 =
      .success "virginica" "high" 0 ∧
    (predict_flower (some modelNeg) 0 0 sampleFlower initState).2.virginica_count =
      initState.virginica_count + 1 :=
  ⟨rfl, rfl⟩

/-- C3 amended: for every class index at least 3 or at most -4 (outside
Python's valid range for a three-element list), the lookup is a fatal
unhandled fault: no label is returned and no label counter is incremented
(the total-call counter was already incremented before the fault). -/
theorem out_of_range_index_faults (m : Flower → ℤ) (fl : Flower) (ts dur : ℚ)
    (s : State) (h : 3 ≤ m fl ∨ m fl ≤ -4) :
    (predict_flower (some m) ts dur fl s).1 = .indexFault (m fl) ∧
    (predict_flower (some m) ts dur fl s).2.setosa_count = s.setosa_count ∧
    (predict_flower (some m) ts dur fl s).2.versicolor_count = s.versicolor_count ∧
    (predict_flower (some m) ts dur fl s).2.virginica_count = s.virginica_count ∧
    (predict_flower (some m) ts dur fl s).2.total_api_calls = s.total_api_calls + 1 := by
  have hq : pyListGet flowers (m fl) = none := pyListGet_out_of_range (m fl) h
  refine ⟨by simp [predict_flower, hq], ?_, ?_, ?_, ?_⟩ <;>
    · have hs := step_predict_some_fault m fl ts dur s hq
      rw [show (predict_flower (some m) ts dur fl s).2 =
            step (.predict (some m) fl ts dur) s from rfl, hs]

/-- Witness for the amended C3 at class index 3. -/
theorem out_of_range_index_faults_witness :
    (3 ≤ modelThree sampleFlower ∨ modelThree sampleFlower ≤ -4) ∧
    ((predict_flower (some modelThree) 0 0 sampleFlower initState).1 =
      .indexFault (modelThree sampleFlower) ∧
     (predict_flower (some modelThree) 0 0 sampleFlower initState).2.setosa_count =
       initState.setosa_count ∧
     (predict_flower (some modelThree) 0 0 sampleFlower initState).2.versicolor_count =
       initState.versicolor_count ∧
     (predict_flower (some modelThree) 0 0 sampleFlower initState).2.virginica_count =
       initState.virginica_count ∧
     (predict_flower (some modelThree) 0 0 sampleFlower initState).2.total_api_calls =
       initState.total_api_calls + 1) :=
  ⟨Or.inl (by decide),
   out_of_range_index_faults modelThree sampleFlower 0 0 initState (Or.inl (by decide))⟩

/-- C4: after any fault-free request sequence (successful predictions
interleaved with model-unavailable rejections and reporting reads), the
total_predictions value of get_stats equals the sum of the three
per-label counters, which equals the number N of successful predictions. -/
theorem stats_total_predictions_eq_sum_eq_N (rs : List Request)
    (h : ∀ r ∈ rs, faultFree r = true) :
    (get_stats (run rs initState)).total_predictions = sumCounts (run rs initState) ∧
    sumCounts (run rs initState) = rs.countP isSuccessfulPredict := by
  refine ⟨rfl, ?_⟩
  rw [sumCounts_run, length_successEntries]
  simp [initState, sumCounts]

/-- Witness for C4 on a mixed three-request trace. -/
theorem stats_total_predictions_eq_sum_eq_N_witness :
    (∀ r ∈ wreqs, faultFree r = true) ∧
    ((get_stats (run wreqs initState)).total_predictions = sumCounts (run wreqs initState) ∧
     sumCounts (run wreqs initState) = wreqs.countP isSuccessfulPredict) := by
  have hf : ∀ r ∈ wreqs, faultFree r = true := by
    intro r hr
    rcases List.mem_cons.mp hr with h | hr
    · subst h; rfl
    rcases List.mem_cons.mp hr with h | hr
    · subst h; rfl
    rcases List.mem_cons.mp hr with h | hr
    · subst h; rfl
    cases hr
  exact ⟨hf, stats_total_predictions_eq_sum_eq_N wreqs hf⟩

/-- C5: the prediction history buffer never holds more than 50 entries
after any request completes; and once 51 successful predictions have been
recorded, the history equals the recorded events with the 1st dropped, so
the 2nd recorded event is the oldest retained entry. -/
theorem history_bounded_and_evicts_oldest (rs : List Request) :
    (run rs initState).prediction_history.length ≤ 50 ∧
    ((successEntries rs).length = 51 →
      (run rs initState).prediction_history = (successEntries rs).drop 1) := by
  have h := hist_run_init rs
  constructor
  · rw [h]
    unfold last50
    simp only [List.length_drop]
    omega
  · intro h51
    rw [h]
    unfold last50
    rw [h51]

/-- Witness for C5 on 51 consecutive successful predictions. -/
theorem history_bounded_and_evicts_oldest_witness :
    (successEntries wreqs51).length = 51 ∧
    (run wreqs51 initState).prediction_history.length ≤ 50 ∧
    (run wreqs51 initState).prediction_history = (successEntries wreqs51).drop 1 := by
  have h := history_bounded_and_evicts_oldest wreqs51
  exact ⟨rfl, h.1, h.2 rfl⟩

/-- C6: in every get_stats response (over any reachable state), the
average prediction duration equals the cumulative-latency accumulator
divided by max(total predictions, 1), is zero when no predictions have
been made, and the performance grade is "A+" below 0.1 seconds, "A" below
0.5 seconds, and "B" otherwise. -/
theorem stats_average_and_grade (rs : List Request) :
    (get_stats (run rs initState)).average_prediction_time =
      (run rs initState).total_prediction_time /
        ((max (get_stats (run rs initState)).total_predictions 1 : ℕ) : ℚ) ∧
    ((get_stats (run rs initState)).total_predictions = 0 →
      (get_stats (run rs initState)).average_prediction_time = 0) ∧
    (get_stats (run rs initState)).performance_grade =
      (if (get_stats (run rs initState)).average_prediction_time < 1/10 then "A+"
       else if (get_stats (run rs initState)).average_prediction_time < 1/2 then "A"
       else "B") := by
  refine ⟨?_, ?_, rfl⟩
  · by_cases h0 : 0 < sumCounts (run rs initState)
    · show (if 0 < sumCounts (run rs initState) then _ else _) = _
      rw [if_pos h0]
      rfl
    · have hz : sumCounts (run rs initState) = 0 := by omega
      have hacc := accum_zero_of_no_success rs hz
      show (if 0 < sumCounts (run rs initState) then _ else _) = _
      rw [if_neg h0, hacc]
      show (0 : ℚ) = 0 / ((max (sumCounts (run rs initState)) 1 : ℕ) : ℚ)
      rw [zero_div]
  · intro hz
    have hz' : sumCounts (run rs initState) = 0 := hz
    show (if 0 < sumCounts (run rs initState) then _ else _) = _
    rw [if_neg (by omega)]

/-- Witness for C6 on the empty trace. -/
theorem stats_average_and_grade_witness :
    (get_stats (run [] initState)).total_predictions = 0 ∧
    (get_stats (run [] initState)).average_prediction_time = 0 := by
  have h := stats_average_and_grade []
  exact ⟨rfl, h.2.1 rfl⟩

/-- C7: in every get_stats response, most_predicted is the label with the
highest per-label count, is the string "None" when no predictions have
been made, and ties are broken by the first such label in iteration order
(setosa before versicolor before virginica). -/
theorem stats_most_predicted_correct (s : State) :
    (get_stats s).most_predicted = specMostPredicted s ∧
    (0 < sumCounts s → ∀ lbl ∈ flowers,
      labelCount s lbl ≤ labelCount s ((get_stats s).most_predicted)) := by
  constructor
  · show (if 0 < sumCounts s then pyMaxByCount s else "None") = specMostPredicted s
    unfold specMostPredicted pyMaxByCount sumCounts
    simp only [List.foldl_cons, List.foldl_nil, apply_ite (labelCount s),
      labelCount_setosa, labelCount_versicolor, labelCount_virginica]
    split_ifs <;> first | rfl | omega | (exfalso; omega)
  · intro h0 lbl hm
    have hmost : (get_stats s).most_predicted = pyMaxByCount s := by
      show (if 0 < sumCounts s then pyMaxByCount s else "None") = _
      rw [if_pos h0]
    rw [hmost]
    unfold pyMaxByCount
    simp only [flowers, List.mem_cons, List.not_mem_nil, or_false] at hm
    simp only [List.foldl_cons, List.foldl_nil, apply_ite (labelCount s),
      labelCount_setosa, labelCount_versicolor, labelCount_virginica]
    rcases hm with h | h | h <;> subst h <;>
      simp only [labelCount_setosa, labelCount_versicolor, labelCount_virginica] <;>
      split_ifs <;> omega

/-- Witness for C7 at a state where setosa and versicolor tie. -/
theorem stats_most_predicted_correct_witness :
    (get_stats tieState).most_predicted = specMostPredicted tieState ∧
    0 < sumCounts tieState ∧
    (∀ lbl ∈ flowers,
      labelCount tieState lbl ≤ labelCount tieState ((get_stats tieState).most_predicted)) := by
  have h := stats_most_predicted_correct tieState
  exact ⟨h.1, by decide, h.2 (by decide)⟩

/-- C8: every reporting operation (get_stats, get_metrics, health_check)
leaves the entire metrics state unchanged: counters, accumulator, and
history buffer are identical before and after the call. -/
theorem reporting_reads_pure (s : State) :
    (handle .stats s).2 = s ∧ (handle .metrics s).2 = s ∧
    ∀ b : Bool, (handle (.health b) s).2 = s :=
  ⟨rfl, rfl, fun _ => rfl⟩

/-- C9 counterexample: the claim says no request with a negative field
value reaches predict_flower, but the schema accepts a body whose sepal
length is -1 and predict_flower processes the resulting measurement. -/
theorem negative_field_accepted :
    validateFlower negBody = some negFlower ∧
    negFlower.sepal_length < 0 ∧
    (predict_flower (some modelZero) 0 0 negFlower initState).1 =
      .success "setosa" "high" 0 :=
  ⟨rfl, by decide, rfl⟩

/-- C9 amended: every Flower Measurement accepted by the /predict request
schema has four real-valued numeric fields, but the schema enforces no
non-negativity: any four numeric values, of any sign, are accepted and
reach predict_flower. -/
theorem schema_accepts_any_four_numbers (a b c d : ℚ) :
    validateFlower
        { sepal_length := some a, sepal_width := some b,
          petal_length := some c, petal_width := some d } =
      some { sepal_length := a, sepal_width := b,
             petal_length := c, petal_width := d } := rfl

/-- C10: over any fault-free request sequence, the total-API-call counter
equals the sum of the three per-label counters: a model-unavailable
rejection increments neither, a successful prediction increments both by
exactly 1, so the two totals reported by get_stats never diverge. -/
theorem api_calls_eq_label_sum (rs : List Request)
    (h : ∀ r ∈ rs, faultFree r = true) :
    (run rs initState).total_api_calls = sumCounts (run rs initState) ∧
    (get_stats (run rs initState)).total_api_calls =
      (get_stats (run rs initState)).total_predictions := by
  have key : (run rs initState).total_api_calls = sumCounts (run rs initState) := by
    rw [api_run, sumCounts_run, countP_loaded_eq_successful rs h, ← length_successEntries]
    simp [initState, sumCounts]
  exact ⟨key, key⟩

/-- Witness for C10 on a mixed three-request trace. -/
theorem api_calls_eq_label_sum_witness :
    (∀ r ∈ wreqs, faultFree r = true) ∧
    ((run wreqs initState).total_api_calls = sumCounts (run wreqs initState) ∧
     (get_stats (run wreqs initState)).total_api_calls =
       (get_stats (run wreqs initState)).total_predictions) := by
  have hf : ∀ r ∈ wreqs, faultFree r = true := by
    intro r hr
    rcases List.mem_cons.mp hr with h | hr
    · subst h; rfl
    rcases List.mem_cons.mp hr with h | hr
    · subst h; rfl
    rcases List.mem_cons.mp hr with h | hr
    · subst h; rfl
    cases hr
  exact ⟨hf, api_calls_eq_label_sum wreqs hf⟩

end Iris
